import Mathlib

set_option maxRecDepth 40000

/-!
Verification of the STM32-Elegant-Debug logging library.

The repository contains three near-identical variants of one debug logger:
  * `Src-C/debug.c`           (plain C, STM32 HAL)
  * `Src-CPP/ElegantDebug.cpp` (C++ class, STM32 HAL)
  * `C lib - TI DriverLib supported #1/ElegantDebug.c` (C, TI MSPM0)

Each variant renders a user format string into a fixed 256-byte buffer with
`vsnprintf`, optionally combines it with a decoration via `snprintf` into a
288- or 352-byte buffer, then `_send` optionally prepends a rendered
timestamp into a 512-byte buffer and hands the C-string contents to a
blocking transmit primitive.

We model bytes as `Char` (all characters involved are single-byte), C strings
as `List Char` (logical content up to but excluding the NUL terminator), and
the variadic formatting step abstractly: every logging entry point takes the
*fully rendered* user text (what `vsnprintf` would produce with unbounded
space) as a `List Char`, and applies the `vsnprintf` size bound itself.
`snprintf`-composition is modelled by concatenation followed by `List.take`
of (buffer size - 1), and `%s` conversion of a buffer that may contain an
embedded NUL is modelled by `cstr` (take up to the first NUL), exactly the
C semantics.  The clock (`HAL_GetTick()` / `*tick_ptr`) is passed as an
explicit `ms` value.
-/

namespace EDbg

/-- `DEBUG_BUFFER_LEN` from all three headers. -/
def DEBUG_BUFFER_LEN : Nat := 256

/-- Size of the `out` buffer in `_send`: `char out[DEBUG_BUFFER_LEN * 2]`. -/
def OUT_CAP : Nat := DEBUG_BUFFER_LEN * 2

/-- Size of the `combined` buffer in `logWithType` and the severity helpers:
`char combined[DEBUG_BUFFER_LEN + 32]`. -/
def COMBINED_CAP : Nat := DEBUG_BUFFER_LEN + 32

/-- Size of the `combined` buffer in the file:line-capable helpers
(`ElegantDebug::error/warning`, TI `debug_error_fileline`/`debug_warning_fileline`):
`char combined[DEBUG_BUFFER_LEN + 96]`. -/
def COMBINED_FL_CAP : Nat := DEBUG_BUFFER_LEN + 96

/-- The content of a C string stored in a byte buffer: the bytes up to (but
not including) the first NUL.  `strlen`, `%s` conversion and the TI byte-wise
send loop all read exactly this much. -/
def cstr (s : List Char) : List Char := s.takeWhile (fun c => c ≠ '\x00')

/-- The ASCII digit character for `n < 10` (as produced by `%lu`/`%u`/`%d`). -/
def digitChar (n : Nat) : Char := Char.ofNat (48 + n)

/-- Decimal digits of `n`, least significant first; fuel-structured so that it
is kernel-computable.  `decRevAux fuel n` is correct whenever `n < fuel`. -/
def decRevAux : Nat → Nat → List Char
  | 0, _ => []
  | fuel + 1, n =>
    if n < 10 then [digitChar n] else digitChar (n % 10) :: decRevAux fuel (n / 10)

/-- Decimal digits of `n`, least significant first. -/
def decRev (n : Nat) : List Char := decRevAux (n + 1) n

/-- Unpadded decimal rendering of `n`, as `printf`'s `%lu`/`%u`/`%d` produce
for a non-negative value. -/
def decRepr (n : Nat) : List Char := (decRev n).reverse

/-- Rendering of `%02lu`: zero-pad to at least two digits. -/
def pad2 (n : Nat) : List Char := if n < 10 then '0' :: decRepr n else decRepr n

/-- Rendering of `%03lu`: zero-pad to at least three digits. -/
def pad3 (n : Nat) : List Char :=
  if n < 10 then '0' :: '0' :: decRepr n
  else if n < 100 then '0' :: decRepr n
  else decRepr n

/-- The timestamp text `"[%02lu:%02lu:%02lu.%03lu] "` rendered in `_send`
(identical code in all three variants):
`s = ms / 1000; hours = s / 3600; minutes = (s % 3600) / 60; seconds = s % 60`
with the final field `ms % 1000`. -/
def tsRender (ms : Nat) : List Char :=
  ['['] ++ pad2 (ms / 1000 / 3600) ++ [':'] ++ pad2 (ms / 1000 % 3600 / 60) ++
    [':'] ++ pad2 (ms / 1000 % 60) ++ ['.'] ++ pad3 (ms % 1000) ++ [']', ' ']

/-- The timestamp prefix contributed by `_send`: present iff the timestamp
toggle is set. -/
def tsPart (enabled : Bool) (ms : Nat) : List Char :=
  if enabled then tsRender ms else []

/-- The timestamp segment as the specification words it, for comparison with
`tsRender`: hours = ms/1000/3600 (unbounded), minutes = (ms/1000/60) mod 60,
seconds = (ms/1000) mod 60, milliseconds = ms mod 1000, zero-padded to 2
digits (3 for milliseconds), rendered as `[HH:MM:SS.mmm] `. -/
def specTimestamp (ms : Nat) : List Char :=
  ['['] ++ pad2 (ms / 1000 / 3600) ++ [':'] ++ pad2 (ms / 1000 / 60 % 60) ++
    [':'] ++ pad2 (ms / 1000 % 60) ++ ['.'] ++ pad3 (ms % 1000) ++ [']', ' ']

/-- `vsnprintf(msg, DEBUG_BUFFER_LEN, format, args)`: the rendered text is cut
to `DEBUG_BUFFER_LEN - 1` units (the last slot holds the NUL terminator). -/
def renderMsg (rendered : List Char) : List Char :=
  rendered.take (DEBUG_BUFFER_LEN - 1)

/-! ## Src-C variant (`Src-C/debug.c`, `Src-C/debug.h`) -/

namespace SrcC

/-- The static state of `debug.c`: `_huart` (modelled by whether it is
non-NULL), `_timestamp_enabled`, `_color_enabled`. -/
structure State where
  huartSet : Bool
  timestampEnabled : Bool
  colorEnabled : Bool
deriving DecidableEq

/-- `debug_init(huart, enable_timestamp, enable_color)`. -/
def debug_init (huartSet ets color : Bool) : State :=
  { huartSet := huartSet, timestampEnabled := ets, colorEnabled := color }

/-- `debug_setTimestampEnabled`. -/
def debug_setTimestampEnabled (st : State) (b : Bool) : State :=
  { st with timestampEnabled := b }

/-- `debug_setColorEnabled`. -/
def debug_setColorEnabled (st : State) (b : Bool) : State :=
  { st with colorEnabled := b }

/-- `ERROR_TYPE` from `Src-C/debug.h` (note the spaces inside the brackets). -/
def ERROR_TYPE : List Char := "\x1b[91m\x1b[1m[ ERROR ]\x1b[0m ".data

/-- `WARNING_TYPE` from `Src-C/debug.h`. -/
def WARNING_TYPE : List Char := "\x1b[93m\x1b[1m[ WARNING ]\x1b[0m ".data

/-- `INFO_TYPE` from `Src-C/debug.h`. -/
def INFO_TYPE : List Char := "\x1b[94m\x1b[1m[ INFO ]\x1b[0m ".data

/-- `OK_TYPE` from `Src-C/debug.h`. -/
def OK_TYPE : List Char := "\x1b[92m\x1b[1m[ OK ]\x1b[0m ".data

/-- `SUCCESS_TYPE` from `Src-C/debug.h`. -/
def SUCCESS_TYPE : List Char := "\x1b[92m\x1b[1m[ SUCCESS ]\x1b[0m ".data

/-- `ERROR_TYPE_PLAIN` from `Src-C/debug.h`. -/
def ERROR_TYPE_PLAIN : List Char := "[ ERROR ] ".data

/-- `WARNING_TYPE_PLAIN` from `Src-C/debug.h`. -/
def WARNING_TYPE_PLAIN : List Char := "[ WARNING ] ".data

/-- `INFO_TYPE_PLAIN` from `Src-C/debug.h`. -/
def INFO_TYPE_PLAIN : List Char := "[ INFO ] ".data

/-- `OK_TYPE_PLAIN` from `Src-C/debug.h`. -/
def OK_TYPE_PLAIN : List Char := "[ OK ] ".data

/-- `SUCCESS_TYPE_PLAIN` from `Src-C/debug.h`. -/
def SUCCESS_TYPE_PLAIN : List Char := "[ SUCCESS ] ".data

/-- `_send(text)` of `Src-C/debug.c`, returning the byte sequence handed to
`HAL_UART_Transmit` (empty when `_huart == NULL`, per the guard).

Derivation from the source: `snprintf` renders the timestamp into `out`
(512 bytes) and returns its untruncated length `pos`; the guard resets `pos`
to 0 if `pos >= sizeof(out)` (in which case `strncpy` then overwrites the
truncated timestamp from offset 0).  `strncpy(out + pos, text, 511 - pos)`
copies `text` up to its first NUL, cut to `511 - pos` units, NUL-padding the
rest; `out[511] = 0`.  `HAL_UART_Transmit` is given `strlen(out)` bytes,
i.e. everything up to the first NUL: the (NUL-free) timestamp followed by
the copied portion of `text`. -/
def sendBytes (st : State) (ms : Nat) (text : List Char) : List Char :=
  if st.huartSet = false then []
  else
    let ts := if st.timestampEnabled then tsRender ms else []
    let pos := if OUT_CAP ≤ ts.length then 0 else ts.length
    let tsOut := if OUT_CAP ≤ ts.length then [] else ts
    tsOut ++ (cstr text).take (OUT_CAP - 1 - pos)

/-- `debug_log(format, ...)`: `vsnprintf` into `msg[256]`, then `_send(msg)`. -/
def debug_log (st : State) (ms : Nat) (rendered : List Char) : List Char :=
  sendBytes st ms (renderMsg rendered)

/-- `debug_logWithType(type, format, ...)`:
`snprintf(combined, 288, "[ %s ] %s", type, msg)` then `_send(combined)`. -/
def debug_logWithType (st : State) (ms : Nat) (type rendered : List Char) :
    List Char :=
  let msg := renderMsg rendered
  let combined :=
    ("[ ".data ++ cstr type ++ " ] ".data ++ cstr msg).take (COMBINED_CAP - 1)
  sendBytes st ms combined

/-- `debug_error(format, ...)`: prefix chosen by `_color_enabled`, then
`snprintf(combined, 288, "%s%s", prefix, msg)` and `_send(combined)`. -/
def debug_error (st : State) (ms : Nat) (rendered : List Char) : List Char :=
  let msg := renderMsg rendered
  let pre := if st.colorEnabled then ERROR_TYPE else ERROR_TYPE_PLAIN
  sendBytes st ms ((pre ++ cstr msg).take (COMBINED_CAP - 1))

/-- `debug_warning(format, ...)`. -/
def debug_warning (st : State) (ms : Nat) (rendered : List Char) : List Char :=
  let msg := renderMsg rendered
  let pre := if st.colorEnabled then WARNING_TYPE else WARNING_TYPE_PLAIN
  sendBytes st ms ((pre ++ cstr msg).take (COMBINED_CAP - 1))

/-- `debug_ok(format, ...)`. -/
def debug_ok (st : State) (ms : Nat) (rendered : List Char) : List Char :=
  let msg := renderMsg rendered
  let pre := if st.colorEnabled then OK_TYPE else OK_TYPE_PLAIN
  sendBytes st ms ((pre ++ cstr msg).take (COMBINED_CAP - 1))

/-- `debug_success(format, ...)`. -/
def debug_success (st : State) (ms : Nat) (rendered : List Char) : List Char :=
  let msg := renderMsg rendered
  let pre := if st.colorEnabled then SUCCESS_TYPE else SUCCESS_TYPE_PLAIN
  sendBytes st ms ((pre ++ cstr msg).take (COMBINED_CAP - 1))

/-- `debug_info(format, ...)`. -/
def debug_info (st : State) (ms : Nat) (rendered : List Char) : List Char :=
  let msg := renderMsg rendered
  let pre := if st.colorEnabled then INFO_TYPE else INFO_TYPE_PLAIN
  sendBytes st ms ((pre ++ cstr msg).take (COMBINED_CAP - 1))

/-! Stateful views of the logging calls.  The bodies of the logging functions
in `debug.c` contain no assignment to any of the static variables
(`_huart`, `_timestamp_enabled`, `_color_enabled`); as state transformers
they are therefore the identity on the state, paired with the transmitted
bytes.  Only `debug_init` and the two setters write the statics. -/

/-- `debug_log` as a state transformer. -/
def logCall (st : State) (ms : Nat) (rendered : List Char) :
    State × List Char :=
  (st, debug_log st ms rendered)

/-- `debug_logWithType` as a state transformer. -/
def logWithTypeCall (st : State) (ms : Nat) (type rendered : List Char) :
    State × List Char :=
  (st, debug_logWithType st ms type rendered)

/-- `debug_error` as a state transformer. -/
def errorCall (st : State) (ms : Nat) (rendered : List Char) :
    State × List Char :=
  (st, debug_error st ms rendered)

/-- `debug_warning` as a state transformer. -/
def warningCall (st : State) (ms : Nat) (rendered : List Char) :
    State × List Char :=
  (st, debug_warning st ms rendered)

/-- `debug_ok` as a state transformer. -/
def okCall (st : State) (ms : Nat) (rendered : List Char) :
    State × List Char :=
  (st, debug_ok st ms rendered)

/-- `debug_success` as a state transformer. -/
def successCall (st : State) (ms : Nat) (rendered : List Char) :
    State × List Char :=
  (st, debug_success st ms rendered)

/-- `debug_info` as a state transformer. -/
def infoCall (st : State) (ms : Nat) (rendered : List Char) :
    State × List Char :=
  (st, debug_info st ms rendered)

end SrcC

/-! ## Src-CPP variant (`Src-CPP/ElegantDebug.cpp`, `Src-CPP/ElegantDebug.h`)

We model the class fields as a `State`.  `_huart` is recorded (as whether it
is non-NULL) but — faithfully to the source — `ElegantDebug::_send` performs
no NULL check on it: the composed buffer is handed to `HAL_UART_Transmit`
unconditionally.  `_filename_line_enabled` exists in the C++20 build; we
model `error`/`warning` from the C++20 branch, which consults it. -/

namespace SrcCPP

/-- The fields of the `ElegantDebug` class. -/
structure State where
  huartSet : Bool
  timestampEnabled : Bool
  colorEnabled : Bool
  filenameLineEnabled : Bool
deriving DecidableEq

/-- `setTimestampEnabled` (inline member). -/
def setTimestampEnabled (st : State) (b : Bool) : State :=
  { st with timestampEnabled := b }

/-- `setColorEnabled` (inline member). -/
def setColorEnabled (st : State) (b : Bool) : State :=
  { st with colorEnabled := b }

/-- `setFilenameLineEnabled` (inline member, C++20 build). -/
def setFilenameLineEnabled (st : State) (b : Bool) : State :=
  { st with filenameLineEnabled := b }

/-- `ERROR_TYPE` from `Src-CPP/ElegantDebug.h` (no spaces inside brackets). -/
def ERROR_TYPE : List Char := "\x1b[91m\x1b[1m[ERROR]\x1b[0m ".data

/-- `WARNING_TYPE` from `Src-CPP/ElegantDebug.h`. -/
def WARNING_TYPE : List Char := "\x1b[93m\x1b[1m[WARNING]\x1b[0m ".data

/-- `INFO_TYPE` from `Src-CPP/ElegantDebug.h`. -/
def INFO_TYPE : List Char := "\x1b[94m\x1b[1m[INFO]\x1b[0m ".data

/-- `OK_TYPE` from `Src-CPP/ElegantDebug.h`. -/
def OK_TYPE : List Char := "\x1b[92m\x1b[1m[OK]\x1b[0m ".data

/-- `SUCCESS_TYPE` from `Src-CPP/ElegantDebug.h`. -/
def SUCCESS_TYPE : List Char := "\x1b[92m\x1b[1m[SUCCESS]\x1b[0m ".data

/-- `ERROR_TYPE_PLAIN` from `Src-CPP/ElegantDebug.h`. -/
def ERROR_TYPE_PLAIN : List Char := "[ERROR] ".data

/-- `WARNING_TYPE_PLAIN` from `Src-CPP/ElegantDebug.h`. -/
def WARNING_TYPE_PLAIN : List Char := "[WARNING] ".data

/-- `INFO_TYPE_PLAIN` from `Src-CPP/ElegantDebug.h`. -/
def INFO_TYPE_PLAIN : List Char := "[INFO] ".data

/-- `OK_TYPE_PLAIN` from `Src-CPP/ElegantDebug.h`. -/
def OK_TYPE_PLAIN : List Char := "[OK] ".data

/-- `SUCCESS_TYPE_PLAIN` from `Src-CPP/ElegantDebug.h`. -/
def SUCCESS_TYPE_PLAIN : List Char := "[SUCCESS] ".data

/-- `ElegantDebug::_send(text)`: identical buffer arithmetic to the Src-C
`_send`, but with no NULL guard on `_huart` or `text`; the result is the byte
sequence handed to the transmit primitive (`HAL_UART_Transmit` or
`CDC_Transmit_FS`, both given `strlen(out)` bytes). -/
def sendBytes (st : State) (ms : Nat) (text : List Char) : List Char :=
  let ts := if st.timestampEnabled then tsRender ms else []
  let pos := if OUT_CAP ≤ ts.length then 0 else ts.length
  let tsOut := if OUT_CAP ≤ ts.length then [] else ts
  tsOut ++ (cstr text).take (OUT_CAP - 1 - pos)

/-- `ElegantDebug::log(format, ...)`. -/
def log (st : State) (ms : Nat) (rendered : List Char) : List Char :=
  sendBytes st ms (renderMsg rendered)

/-- `ElegantDebug::logWithType(type, style, format, ...)`:
`snprintf(combined, 288, "\033[1m%s[%s]\033[0m %s", style, type, msg)`. -/
def logWithType (st : State) (ms : Nat) (type style rendered : List Char) :
    List Char :=
  let msg := renderMsg rendered
  let combined :=
    ("\x1b[1m".data ++ cstr style ++ "[".data ++ cstr type ++
      "]\x1b[0m ".data ++ cstr msg).take (COMBINED_CAP - 1)
  sendBytes st ms combined

/-- `ElegantDebug::error(format, loc, ...)` (C++20 branch): `combined` is 352
bytes in both branches; with `_filename_line_enabled` the format is
`"%s[%s:%ld] %s"` with `loc.file_name()` and `loc.line()`. -/
def error (st : State) (ms : Nat) (file : List Char) (line : Nat)
    (rendered : List Char) : List Char :=
  let msg := renderMsg rendered
  let pre := if st.colorEnabled then ERROR_TYPE else ERROR_TYPE_PLAIN
  let combined :=
    if st.filenameLineEnabled then
      (pre ++ "[".data ++ cstr file ++ ":".data ++ decRepr line ++
        "] ".data ++ cstr msg).take (COMBINED_FL_CAP - 1)
    else (pre ++ cstr msg).take (COMBINED_FL_CAP - 1)
  sendBytes st ms combined

/-- `ElegantDebug::warning(format, loc, ...)` (C++20 branch). -/
def warning (st : State) (ms : Nat) (file : List Char) (line : Nat)
    (rendered : List Char) : List Char :=
  let msg := renderMsg rendered
  let pre := if st.colorEnabled then WARNING_TYPE else WARNING_TYPE_PLAIN
  let combined :=
    if st.filenameLineEnabled then
      (pre ++ "[".data ++ cstr file ++ ":".data ++ decRepr line ++
        "] ".data ++ cstr msg).take (COMBINED_FL_CAP - 1)
    else (pre ++ cstr msg).take (COMBINED_FL_CAP - 1)
  sendBytes st ms combined

/-- `ElegantDebug::ok(format, ...)`. -/
def ok (st : State) (ms : Nat) (rendered : List Char) : List Char :=
  let msg := renderMsg rendered
  let pre := if st.colorEnabled then OK_TYPE else OK_TYPE_PLAIN
  sendBytes st ms ((pre ++ cstr msg).take (COMBINED_CAP - 1))

/-- `ElegantDebug::success(format, ...)`. -/
def success (st : State) (ms : Nat) (rendered : List Char) : List Char :=
  let msg := renderMsg rendered
  let pre := if st.colorEnabled then SUCCESS_TYPE else SUCCESS_TYPE_PLAIN
  sendBytes st ms ((pre ++ cstr msg).take (COMBINED_CAP - 1))

/-- `ElegantDebug::info(format, ...)`. -/
def info (st : State) (ms : Nat) (rendered : List Char) : List Char :=
  let msg := renderMsg rendered
  let pre := if st.colorEnabled then INFO_TYPE else INFO_TYPE_PLAIN
  sendBytes st ms ((pre ++ cstr msg).take (COMBINED_CAP - 1))

/-- `ElegantDebug::customTextColor(r, g, b)`:
`snprintf(ansi, 24, "\033[38;2;%u;%u;%um", r, g, b)` into a static 24-byte
buffer; we return its C-string content. -/
def customTextColor (r g b : Nat) : List Char :=
  ("\x1b[38;2;".data ++ decRepr r ++ ";".data ++ decRepr g ++ ";".data ++
    decRepr b ++ "m".data).take 23

/-- `ElegantDebug::customBgColor(r, g, b)`:
`snprintf(ansi, 24, "\033[48;2;%u;%u;%um", r, g, b)`. -/
def customBgColor (r g b : Nat) : List Char :=
  ("\x1b[48;2;".data ++ decRepr r ++ ";".data ++ decRepr g ++ ";".data ++
    decRepr b ++ "m".data).take 23

/-- `log` as a state transformer (no field is assigned in its body). -/
def logCall (st : State) (ms : Nat) (rendered : List Char) :
    State × List Char :=
  (st, log st ms rendered)

/-- `logWithType` as a state transformer. -/
def logWithTypeCall (st : State) (ms : Nat) (type style rendered : List Char) :
    State × List Char :=
  (st, logWithType st ms type style rendered)

/-- `error` as a state transformer. -/
def errorCall (st : State) (ms : Nat) (file : List Char) (line : Nat)
    (rendered : List Char) : State × List Char :=
  (st, error st ms file line rendered)

/-- `warning` as a state transformer. -/
def warningCall (st : State) (ms : Nat) (file : List Char) (line : Nat)
    (rendered : List Char) : State × List Char :=
  (st, warning st ms file line rendered)

/-- `ok` as a state transformer. -/
def okCall (st : State) (ms : Nat) (rendered : List Char) : State × List Char :=
  (st, ok st ms rendered)

/-- `success` as a state transformer. -/
def successCall (st : State) (ms : Nat) (rendered : List Char) :
    State × List Char :=
  (st, success st ms rendered)

/-- `info` as a state transformer. -/
def infoCall (st : State) (ms : Nat) (rendered : List Char) :
    State × List Char :=
  (st, info st ms rendered)

end SrcCPP

/-! ## TI DriverLib variant (`C lib - TI DriverLib supported #1/ElegantDebug.c`)

Differences from Src-C: the transport is a `UART_Regs*` base address, the
clock is a user-supplied `volatile uint32_t *tick_ptr` (NULL means `ms = 0`),
there is a `_filename_line_enabled` flag, the severity tags are the
no-inner-space variants, `logWithType` takes a `style` and NULL-guards its
string arguments, `error`/`warning` come as `_fileline` functions, and the
transmit primitive `_uart_send_string` sends byte-by-byte until the first
NUL (same bytes as `strlen`-sized bulk send). -/

namespace TI

/-- The static state of the TI port: `_uart_base` (non-NULL?), `_tick_ptr`
(the pointed-to millisecond value, or `none` when NULL), and the three
toggles. -/
structure State where
  uartSet : Bool
  tick : Option Nat
  timestampEnabled : Bool
  colorEnabled : Bool
  filenameLineEnabled : Bool
deriving DecidableEq

/-- `debug_init(uart_base, tick_ptr, enable_timestamp, enable_color,
enable_filename_line)`. -/
def debug_init (uartSet : Bool) (tick : Option Nat) (ets color fl : Bool) :
    State :=
  { uartSet := uartSet, tick := tick, timestampEnabled := ets,
    colorEnabled := color, filenameLineEnabled := fl }

/-- `debug_setTimestampEnabled`. -/
def debug_setTimestampEnabled (st : State) (b : Bool) : State :=
  { st with timestampEnabled := b }

/-- `debug_setColorEnabled`. -/
def debug_setColorEnabled (st : State) (b : Bool) : State :=
  { st with colorEnabled := b }

/-- `debug_setFilenameLineEnabled`. -/
def debug_setFilenameLineEnabled (st : State) (b : Bool) : State :=
  { st with filenameLineEnabled := b }

/-- `ERROR_TYPE` from the TI `ElegantDebug.h` (same text as Src-CPP). -/
def ERROR_TYPE : List Char := "\x1b[91m\x1b[1m[ERROR]\x1b[0m ".data

/-- `WARNING_TYPE` from the TI `ElegantDebug.h`. -/
def WARNING_TYPE : List Char := "\x1b[93m\x1b[1m[WARNING]\x1b[0m ".data

/-- `INFO_TYPE` from the TI `ElegantDebug.h`. -/
def INFO_TYPE : List Char := "\x1b[94m\x1b[1m[INFO]\x1b[0m ".data

/-- `OK_TYPE` from the TI `ElegantDebug.h`. -/
def OK_TYPE : List Char := "\x1b[92m\x1b[1m[OK]\x1b[0m ".data

/-- `SUCCESS_TYPE` from the TI `ElegantDebug.h`. -/
def SUCCESS_TYPE : List Char := "\x1b[92m\x1b[1m[SUCCESS]\x1b[0m ".data

/-- `ERROR_TYPE_PLAIN` from the TI `ElegantDebug.h`. -/
def ERROR_TYPE_PLAIN : List Char := "[ERROR] ".data

/-- `WARNING_TYPE_PLAIN` from the TI `ElegantDebug.h`. -/
def WARNING_TYPE_PLAIN : List Char := "[WARNING] ".data

/-- `INFO_TYPE_PLAIN` from the TI `ElegantDebug.h`. -/
def INFO_TYPE_PLAIN : List Char := "[INFO] ".data

/-- `OK_TYPE_PLAIN` from the TI `ElegantDebug.h`. -/
def OK_TYPE_PLAIN : List Char := "[OK] ".data

/-- `SUCCESS_TYPE_PLAIN` from the TI `ElegantDebug.h`. -/
def SUCCESS_TYPE_PLAIN : List Char := "[SUCCESS] ".data

/-- `_send(text)` followed by `_uart_send_string(out)`: guarded on
`_uart_base == 0` (the `text == NULL` guard is not representable — our texts
are always values); `ms` is `*tick_ptr` or 0 when the pointer is NULL; the
rest is the same 512-byte buffer arithmetic as Src-C.  `_uart_send_string`
transmits `out` byte-by-byte, stopping at the first NUL — the same bytes
`strlen` would measure. -/
def sendBytes (st : State) (text : List Char) : List Char :=
  if st.uartSet = false then []
  else
    let ms := match st.tick with
      | none => 0
      | some v => v
    let ts := if st.timestampEnabled then tsRender ms else []
    let pos := if OUT_CAP ≤ ts.length then 0 else ts.length
    let tsOut := if OUT_CAP ≤ ts.length then [] else ts
    tsOut ++ (cstr text).take (OUT_CAP - 1 - pos)

/-- `debug_log(format, ...)`. -/
def debug_log (st : State) (rendered : List Char) : List Char :=
  sendBytes st (renderMsg rendered)

/-- `debug_logWithType(type, style, format, ...)`:
`snprintf(combined, 288, "\033[1m%s[%s]\033[0m %s", style ? style : "",
type ? type : "", msg)`. -/
def debug_logWithType (st : State) (type style : Option (List Char))
    (rendered : List Char) : List Char :=
  let msg := renderMsg rendered
  let styleStr := match style with
    | none => []
    | some s => s
  let typeStr := match type with
    | none => []
    | some t => t
  let combined :=
    ("\x1b[1m".data ++ cstr styleStr ++ "[".data ++ cstr typeStr ++
      "]\x1b[0m ".data ++ cstr msg).take (COMBINED_CAP - 1)
  sendBytes st combined

/-- `debug_error_fileline(file, line, format, ...)`: the file:line segment is
emitted only when `_filename_line_enabled && file != NULL`. -/
def debug_error_fileline (st : State) (file : Option (List Char)) (line : Nat)
    (rendered : List Char) : List Char :=
  let msg := renderMsg rendered
  let pre := if st.colorEnabled then ERROR_TYPE else ERROR_TYPE_PLAIN
  let combined := match st.filenameLineEnabled, file with
    | true, some f =>
      (pre ++ "[".data ++ cstr f ++ ":".data ++ decRepr line ++
        "] ".data ++ cstr msg).take (COMBINED_FL_CAP - 1)
    | _, _ => (pre ++ cstr msg).take (COMBINED_FL_CAP - 1)
  sendBytes st combined

/-- `debug_warning_fileline(file, line, format, ...)`. -/
def debug_warning_fileline (st : State) (file : Option (List Char))
    (line : Nat) (rendered : List Char) : List Char :=
  let msg := renderMsg rendered
  let pre := if st.colorEnabled then WARNING_TYPE else WARNING_TYPE_PLAIN
  let combined := match st.filenameLineEnabled, file with
    | true, some f =>
      (pre ++ "[".data ++ cstr f ++ ":".data ++ decRepr line ++
        "] ".data ++ cstr msg).take (COMBINED_FL_CAP - 1)
    | _, _ => (pre ++ cstr msg).take (COMBINED_FL_CAP - 1)
  sendBytes st combined

/-- `debug_ok(format, ...)`. -/
def debug_ok (st : State) (rendered : List Char) : List Char :=
  let msg := renderMsg rendered
  let pre := if st.colorEnabled then OK_TYPE else OK_TYPE_PLAIN
  sendBytes st ((pre ++ cstr msg).take (COMBINED_CAP - 1))

/-- `debug_success(format, ...)`. -/
def debug_success (st : State) (rendered : List Char) : List Char :=
  let msg := renderMsg rendered
  let pre := if st.colorEnabled then SUCCESS_TYPE else SUCCESS_TYPE_PLAIN
  sendBytes st ((pre ++ cstr msg).take (COMBINED_CAP - 1))

/-- `debug_info(format, ...)`. -/
def debug_info (st : State) (rendered : List Char) : List Char :=
  let msg := renderMsg rendered
  let pre := if st.colorEnabled then INFO_TYPE else INFO_TYPE_PLAIN
  sendBytes st ((pre ++ cstr msg).take (COMBINED_CAP - 1))

/-- `debug_log` as a state transformer (no static is assigned in its body). -/
def logCall (st : State) (rendered : List Char) : State × List Char :=
  (st, debug_log st rendered)

/-- `debug_logWithType` as a state transformer. -/
def logWithTypeCall (st : State) (type style : Option (List Char))
    (rendered : List Char) : State × List Char :=
  (st, debug_logWithType st type style rendered)

/-- `debug_error_fileline` as a state transformer. -/
def errorCall (st : State) (file : Option (List Char)) (line : Nat)
    (rendered : List Char) : State × List Char :=
  (st, debug_error_fileline st file line rendered)

/-- `debug_warning_fileline` as a state transformer. -/
def warningCall (st : State) (file : Option (List Char)) (line : Nat)
    (rendered : List Char) : State × List Char :=
  (st, debug_warning_fileline st file line rendered)

/-- `debug_ok` as a state transformer. -/
def okCall (st : State) (rendered : List Char) : State × List Char :=
  (st, debug_ok st rendered)

/-- `debug_success` as a state transformer. -/
def successCall (st : State) (rendered : List Char) : State × List Char :=
  (st, debug_success st rendered)

/-- `debug_info` as a state transformer. -/
def infoCall (st : State) (rendered : List Char) : State × List Char :=
  (st, debug_info st rendered)

end TI

/-! ## Basic lemmas about the decimal renderer -/

theorem decRevAux_succ (fuel n : Nat) :
    decRevAux (fuel + 1) n =
      if n < 10 then [digitChar n]
      else digitChar (n % 10) :: decRevAux fuel (n / 10) := rfl

theorem decRevAux_congr :
    ∀ f1 f2 n, n < f1 → n < f2 → decRevAux f1 n = decRevAux f2 n := by
  intro f1
  induction f1 with
  | zero => intro f2 n h1 _; omega
  | succ f ih =>
    intro f2 n h1 h2
    cases f2 with
    | zero => omega
    | succ f2 =>
      rw [decRevAux_succ, decRevAux_succ]
      by_cases h : n < 10
      · rw [if_pos h, if_pos h]
      · rw [if_neg h, if_neg h]
        have hd : n / 10 < n := Nat.div_lt_self (by omega) (by omega)
        rw [ih f2 (n / 10) (by omega) (by omega)]

/-- Unfolding equation for `decRev` that recurses on the value itself. -/
theorem decRev_eq (n : Nat) :
    decRev n =
      if n < 10 then [digitChar n] else digitChar (n % 10) :: decRev (n / 10) := by
  show decRevAux (n + 1) n = _
  rw [decRevAux_succ]
  by_cases h : n < 10
  · rw [if_pos h, if_pos h]
  · rw [if_neg h, if_neg h]
    have hd : n / 10 < n := Nat.div_lt_self (by omega) (by omega)
    rw [decRevAux_congr n (n / 10 + 1) (n / 10) (by omega) (by omega)]
    exact rfl

theorem digitChar_toNat {n : Nat} (h : n < 10) : (digitChar n).toNat = 48 + n := by
  interval_cases n <;> decide

theorem decRev_chars :
    ∀ n, ∀ c ∈ decRev n, 48 ≤ c.toNat ∧ c.toNat ≤ 57 := by
  intro n
  induction n using Nat.strong_induction_on with
  | _ n ih =>
    intro c hc
    rw [decRev_eq] at hc
    by_cases h : n < 10
    · rw [if_pos h] at hc
      simp only [List.mem_singleton] at hc
      subst hc
      rw [digitChar_toNat h]
      omega
    · rw [if_neg h] at hc
      rcases List.mem_cons.mp hc with h1 | h2
      · subst h1
        have hm : n % 10 < 10 := Nat.mod_lt n (by omega)
        rw [digitChar_toNat hm]
        omega
      · exact ih (n / 10) (Nat.div_lt_self (by omega) (by omega)) c h2

theorem decRepr_chars (n : Nat) :
    ∀ c ∈ decRepr n, 48 ≤ c.toNat ∧ c.toNat ≤ 57 := by
  intro c hc
  exact decRev_chars n c (List.mem_reverse.mp hc)

theorem decRev_length_le :
    ∀ n k, n < 10 ^ k → 1 ≤ k → (decRev n).length ≤ k := by
  intro n
  induction n using Nat.strong_induction_on with
  | _ n ih =>
    intro k hk h1
    rw [decRev_eq]
    by_cases h : n < 10
    · rw [if_pos h]; simpa using h1
    · rw [if_neg h]
      have hk2 : 2 ≤ k := by
        rcases k with _ | _ | k
        · omega
        · exfalso; simp at hk; omega
        · omega
      have hpow : 10 ^ k = 10 ^ (k - 1) * 10 := by
        rw [← pow_succ]
        congr 1
        omega
      have hdivlt : n / 10 < 10 ^ (k - 1) :=
        Nat.div_lt_of_lt_mul (by rw [mul_comm, ← hpow]; exact hk)
      have := ih (n / 10) (Nat.div_lt_self (by omega) (by omega)) (k - 1) hdivlt (by omega)
      simp only [List.length_cons]
      omega

theorem decRepr_length_le {n k : Nat} (hk : n < 10 ^ k) (h1 : 1 ≤ k) :
    (decRepr n).length ≤ k := by
  simpa [decRepr] using decRev_length_le n k hk h1

theorem decRepr_len1 {n : Nat} (h : n < 10) : (decRepr n).length = 1 := by
  simp [decRepr, decRev_eq n, h]

theorem decRepr_len2 {n : Nat} (h1 : 10 ≤ n) (h2 : n < 100) :
    (decRepr n).length = 2 := by
  have h10 : ¬ n < 10 := by omega
  have hd : n / 10 < 10 := by omega
  rw [decRepr, decRev_eq n, if_neg h10, decRev_eq (n / 10), if_pos hd]
  simp

theorem decRepr_len3 {n : Nat} (h1 : 100 ≤ n) (h2 : n < 1000) :
    (decRepr n).length = 3 := by
  have h10 : ¬ n < 10 := by omega
  have hd1 : ¬ n / 10 < 10 := by omega
  have hd2 : n / 10 / 10 < 10 := by omega
  rw [decRepr, decRev_eq n, if_neg h10, decRev_eq (n / 10), if_neg hd1,
    decRev_eq (n / 10 / 10), if_pos hd2]
  simp

theorem pad2_chars (n : Nat) : ∀ c ∈ pad2 n, 48 ≤ c.toNat ∧ c.toNat ≤ 57 := by
  intro c hc
  unfold pad2 at hc
  by_cases h : n < 10
  · rw [if_pos h] at hc
    rcases List.mem_cons.mp hc with h1 | h2
    · subst h1; decide
    · exact decRepr_chars n c h2
  · rw [if_neg h] at hc
    exact decRepr_chars n c hc

theorem pad3_chars (n : Nat) : ∀ c ∈ pad3 n, 48 ≤ c.toNat ∧ c.toNat ≤ 57 := by
  intro c hc
  unfold pad3 at hc
  by_cases h : n < 10
  · rw [if_pos h] at hc
    rcases List.mem_cons.mp hc with h1 | h2
    · subst h1; decide
    rcases List.mem_cons.mp h2 with h3 | h4
    · subst h3; decide
    · exact decRepr_chars n c h4
  · rw [if_neg h] at hc
    by_cases h2 : n < 100
    · rw [if_pos h2] at hc
      rcases List.mem_cons.mp hc with h3 | h4
      · subst h3; decide
      · exact decRepr_chars n c h4
    · rw [if_neg h2] at hc
      exact decRepr_chars n c hc

theorem pad2_length_eq2 {n : Nat} (h : n < 100) : (pad2 n).length = 2 := by
  unfold pad2
  by_cases h1 : n < 10
  · rw [if_pos h1]; simp [decRepr_len1 h1]
  · rw [if_neg h1]; exact decRepr_len2 (by omega) h

theorem pad2_length_le4 {n : Nat} (h : n < 10000) : (pad2 n).length ≤ 4 := by
  unfold pad2
  by_cases h1 : n < 10
  · rw [if_pos h1]; simp [decRepr_len1 h1]
  · rw [if_neg h1]
    have : (decRepr n).length ≤ 4 := decRepr_length_le (by norm_num; omega) (by omega)
    omega

theorem pad3_length_eq3 {n : Nat} (h : n < 1000) : (pad3 n).length = 3 := by
  unfold pad3
  by_cases h1 : n < 10
  · rw [if_pos h1]; simp [decRepr_len1 h1]
  · rw [if_neg h1]
    by_cases h2 : n < 100
    · rw [if_pos h2]; simp [decRepr_len2 (by omega) h2]
    · rw [if_neg h2]; exact decRepr_len3 (by omega) h

/-! ## Lemmas about the rendered timestamp -/

theorem tsRender_length_le {ms : Nat} (hms : ms < 2 ^ 32) :
    (tsRender ms).length ≤ 17 := by
  unfold tsRender
  have hh : (pad2 (ms / 1000 / 3600)).length ≤ 4 := pad2_length_le4 (by omega)
  have hm : (pad2 (ms / 1000 % 3600 / 60)).length = 2 := pad2_length_eq2 (by omega)
  have hs : (pad2 (ms / 1000 % 60)).length = 2 := pad2_length_eq2 (by omega)
  have hms3 : (pad3 (ms % 1000)).length = 3 := pad3_length_eq3 (by omega)
  simp only [List.length_append, List.length_cons, List.length_nil]
  omega

theorem tsPart_length_le (ets : Bool) {ms : Nat} (hms : ms < 2 ^ 32) :
    (tsPart ets ms).length ≤ 17 := by
  cases ets
  · simp [tsPart]
  · simpa [tsPart] using tsRender_length_le hms

theorem tsRender_chars (ms : Nat) : ∀ c ∈ tsRender ms, 32 ≤ c.toNat := by
  intro c hc
  unfold tsRender at hc
  simp only [List.mem_append, List.mem_cons, List.mem_singleton,
    List.not_mem_nil, or_false] at hc
  casesm* _ ∨ _
  all_goals rename_i h
  all_goals
    first
      | (subst h; decide)
      | (have h2 := (pad2_chars _ c h).1; omega)
      | (have h2 := (pad3_chars _ c h).1; omega)

theorem tsRender_ne_nul (ms : Nat) : ∀ c ∈ tsRender ms, c ≠ '\x00' := by
  intro c hc he
  have := tsRender_chars ms c hc
  subst he
  simp at this

theorem tsPart_ne_nul (ets : Bool) (ms : Nat) : ∀ c ∈ tsPart ets ms, c ≠ '\x00' := by
  cases ets
  · simp [tsPart]
  · simpa [tsPart] using tsRender_ne_nul ms

theorem tsPart_ne_esc (ets : Bool) (ms : Nat) : ∀ c ∈ tsPart ets ms, c ≠ '\x1b' := by
  cases ets
  · simp [tsPart]
  · intro c hc he
    have := tsRender_chars ms c (by simpa [tsPart] using hc)
    subst he
    simp at this

/-! ## Lemmas about C-string reading -/

theorem takeWhile_all {α : Type} {p : α → Bool} :
    ∀ l : List α, (∀ c ∈ l, p c) → l.takeWhile p = l := by
  intro l h
  induction l with
  | nil => rfl
  | cons a l ih =>
    rw [List.takeWhile_cons_of_pos (h a (List.mem_cons_self a l))]
    rw [ih fun c hc => h c (List.mem_cons_of_mem a hc)]

theorem cstr_eq_self {s : List Char} (h : ∀ c ∈ s, c ≠ '\x00') : cstr s = s := by
  apply takeWhile_all
  intro c hc
  simpa using h c hc

theorem cstr_append_nul {a : List Char} (b : List Char)
    (h : ∀ c ∈ a, c ≠ '\x00') : cstr (a ++ '\x00' :: b) = a := by
  unfold cstr
  rw [List.takeWhile_append_of_pos (by intro c hc; simpa using h c hc)]
  rw [List.takeWhile_cons_of_neg (by simp)]
  simp

/-! ## The `_send` formula: with a configured transport, a NUL-free payload
that fits, and a 32-bit clock value, `_send` transmits exactly the timestamp
prefix followed by the payload. -/

theorem srcC_send_eq (ets color : Bool) (ms : Nat) (text : List Char)
    (hms : ms < 2 ^ 32) (hnul : ∀ c ∈ text, c ≠ '\x00')
    (hlen : text.length ≤ 494) :
    SrcC.sendBytes ⟨true, ets, color⟩ ms text = tsPart ets ms ++ text := by
  have h17 : (tsPart ets ms).length ≤ 17 := tsPart_length_le ets hms
  have hocap : ¬ (OUT_CAP ≤ (if ets then tsRender ms else []).length) := by
    have he : (if ets then tsRender ms else []) = tsPart ets ms := rfl
    rw [he]
    unfold OUT_CAP DEBUG_BUFFER_LEN
    omega
  have hc : cstr text = text := cstr_eq_self hnul
  have hfit : text.length ≤ OUT_CAP - 1 - (if ets = true then tsRender ms else []).length := by
    have he : (if ets = true then tsRender ms else []) = tsPart ets ms := rfl
    rw [he]
    unfold OUT_CAP DEBUG_BUFFER_LEN
    omega
  simp only [SrcC.sendBytes, hc, if_neg hocap]
  rw [if_neg (show ¬ (true = false) by simp), List.take_of_length_le hfit]
  rfl

theorem srcCPP_send_eq (ets color fl : Bool) (ms : Nat) (text : List Char)
    (hms : ms < 2 ^ 32) (hnul : ∀ c ∈ text, c ≠ '\x00')
    (hlen : text.length ≤ 494) :
    SrcCPP.sendBytes ⟨true, ets, color, fl⟩ ms text = tsPart ets ms ++ text := by
  have h17 : (tsPart ets ms).length ≤ 17 := tsPart_length_le ets hms
  have hocap : ¬ (OUT_CAP ≤ (if ets then tsRender ms else []).length) := by
    have he : (if ets then tsRender ms else []) = tsPart ets ms := rfl
    rw [he]
    unfold OUT_CAP DEBUG_BUFFER_LEN
    omega
  have hc : cstr text = text := cstr_eq_self hnul
  have hfit : text.length ≤ OUT_CAP - 1 - (if ets = true then tsRender ms else []).length := by
    have he : (if ets = true then tsRender ms else []) = tsPart ets ms := rfl
    rw [he]
    unfold OUT_CAP DEBUG_BUFFER_LEN
    omega
  simp only [SrcCPP.sendBytes, hc, if_neg hocap]
  rw [List.take_of_length_le hfit]
  rfl

theorem ti_send_eq (ets color fl : Bool) (ms : Nat) (text : List Char)
    (hms : ms < 2 ^ 32) (hnul : ∀ c ∈ text, c ≠ '\x00')
    (hlen : text.length ≤ 494) :
    TI.sendBytes ⟨true, some ms, ets, color, fl⟩ text = tsPart ets ms ++ text := by
  have h17 : (tsPart ets ms).length ≤ 17 := tsPart_length_le ets hms
  have hocap : ¬ (OUT_CAP ≤ (if ets then tsRender ms else []).length) := by
    have he : (if ets then tsRender ms else []) = tsPart ets ms := rfl
    rw [he]
    unfold OUT_CAP DEBUG_BUFFER_LEN
    omega
  have hc : cstr text = text := cstr_eq_self hnul
  have hfit : text.length ≤ OUT_CAP - 1 - (if ets = true then tsRender ms else []).length := by
    have he : (if ets = true then tsRender ms else []) = tsPart ets ms := rfl
    rw [he]
    unfold OUT_CAP DEBUG_BUFFER_LEN
    omega
  simp only [TI.sendBytes, hc, if_neg hocap]
  rw [if_neg (show ¬ (true = false) by simp), List.take_of_length_le hfit]
  rfl

/-! Variants of the `_send` formula where the payload was first cut by an
`snprintf` bound it in fact fits under. -/

theorem srcC_send_take (ets color : Bool) (ms : Nat) (payload : List Char)
    (cap : Nat) (hms : ms < 2 ^ 32) (hnul : ∀ c ∈ payload, c ≠ '\x00')
    (hlen : payload.length ≤ 494) (hcap : payload.length ≤ cap) :
    SrcC.sendBytes ⟨true, ets, color⟩ ms (payload.take cap) =
      tsPart ets ms ++ payload := by
  rw [List.take_of_length_le hcap]
  exact srcC_send_eq ets color ms payload hms hnul hlen

theorem srcCPP_send_take (ets color fl : Bool) (ms : Nat) (payload : List Char)
    (cap : Nat) (hms : ms < 2 ^ 32) (hnul : ∀ c ∈ payload, c ≠ '\x00')
    (hlen : payload.length ≤ 494) (hcap : payload.length ≤ cap) :
    SrcCPP.sendBytes ⟨true, ets, color, fl⟩ ms (payload.take cap) =
      tsPart ets ms ++ payload := by
  rw [List.take_of_length_le hcap]
  exact srcCPP_send_eq ets color fl ms payload hms hnul hlen

theorem ti_send_take (ets color fl : Bool) (ms : Nat) (payload : List Char)
    (cap : Nat) (hms : ms < 2 ^ 32) (hnul : ∀ c ∈ payload, c ≠ '\x00')
    (hlen : payload.length ≤ 494) (hcap : payload.length ≤ cap) :
    TI.sendBytes ⟨true, some ms, ets, color, fl⟩ (payload.take cap) =
      tsPart ets ms ++ payload := by
  rw [List.take_of_length_le hcap]
  exact ti_send_eq ets color fl ms payload hms hnul hlen

theorem renderMsg_eq_self {r : List Char} (h : r.length ≤ 255) :
    renderMsg r = r := by
  unfold renderMsg DEBUG_BUFFER_LEN
  exact List.take_of_length_le (by omega)

theorem renderMsg_eq_take (r : List Char) : renderMsg r = r.take 255 := rfl

/-- Sending a severity-tagged payload through the Src-C `_send`: the tag
(chosen by the color flag) is emitted in full, followed by the message. -/
theorem srcC_sev_send (ets color : Bool) (ms : Nat) (tagT tagP r : List Char)
    (hms : ms < 2 ^ 32) (hlen : r.length ≤ 255) (hnul : ∀ c ∈ r, c ≠ '\x00')
    (htnul : ∀ c ∈ tagT, c ≠ '\x00') (hpnul : ∀ c ∈ tagP, c ≠ '\x00')
    (htlen : tagT.length ≤ 25) (hplen : tagP.length ≤ 25) :
    SrcC.sendBytes ⟨true, ets, color⟩ ms
      (((if color = true then tagT else tagP) ++ cstr r).take (COMBINED_CAP - 1)) =
      tsPart ets ms ++ ((if color = true then tagT else tagP) ++ r) := by
  have hdnul : ∀ c ∈ (if color = true then tagT else tagP), c ≠ '\x00' := by
    cases color
    · simpa using hpnul
    · simpa using htnul
  have hdlen : (if color = true then tagT else tagP).length ≤ 25 := by
    cases color
    · simpa using hplen
    · simpa using htlen
  rw [cstr_eq_self hnul]
  exact srcC_send_take ets color ms _ _ hms
    (fun c hc => (List.mem_append.mp hc).elim (hdnul c) (hnul c))
    (by simp only [List.length_append]; omega)
    (by simp only [List.length_append]; unfold COMBINED_CAP DEBUG_BUFFER_LEN; omega)

/-- Sending a fixed-tag payload through the Src-C `_send`. -/
theorem srcC_tag_send (ets color : Bool) (ms : Nat) (tag r : List Char)
    (hms : ms < 2 ^ 32) (hlen : r.length ≤ 255) (hnul : ∀ c ∈ r, c ≠ '\x00')
    (htagnul : ∀ c ∈ tag, c ≠ '\x00') (htaglen : tag.length ≤ 25) :
    SrcC.sendBytes ⟨true, ets, color⟩ ms
      ((tag ++ cstr r).take (COMBINED_CAP - 1)) =
      tsPart ets ms ++ (tag ++ r) := by
  rw [cstr_eq_self hnul]
  exact srcC_send_take ets color ms _ _ hms
    (fun c hc => (List.mem_append.mp hc).elim (htagnul c) (hnul c))
    (by simp only [List.length_append]; omega)
    (by simp only [List.length_append]; unfold COMBINED_CAP DEBUG_BUFFER_LEN; omega)

/-- The escape byte does not occur in a transmission whose tag and message
are escape-free. -/
theorem esc_notin_append (ets : Bool) (ms : Nat) (tag r : List Char)
    (htag : '\x1b' ∉ tag) (hr : ∀ c ∈ r, c ≠ '\x1b') :
    '\x1b' ∉ tsPart ets ms ++ (tag ++ r) := by
  intro h
  rcases List.mem_append.mp h with h | h
  · exact tsPart_ne_esc ets ms _ h rfl
  rcases List.mem_append.mp h with h | h
  · exact htag h
  · exact hr _ h rfl

/-! ## Claim theorems -/

/-- C4: when timestamps are enabled, the prepended timestamp segment for any
clock reading `ms` is `[HH:MM:SS.mmm] ` with hours = ms/1000/3600 (unbounded),
minutes = (ms/1000/60) mod 60, seconds = (ms/1000) mod 60, milliseconds =
ms mod 1000, zero-padded to 2 digits (3 for milliseconds); in particular
3,725,250 ms renders as `[01:02:05.250] `. -/
theorem c4_timestamp_format :
    (∀ ms : Nat, tsRender ms = specTimestamp ms) ∧
      tsRender 3725250 = "[01:02:05.250] ".data := by
  constructor
  · intro ms
    unfold tsRender specTimestamp
    have h := Nat.mod_mul_right_div_self (ms / 1000) 60 60
    norm_num at h
    rw [h]
  · decide

/-- C8: for all 8-bit channel values, `customTextColor(r,g,b)` is exactly
`ESC[38;2;R;G;Bm` and `customBgColor(r,g,b)` is exactly `ESC[48;2;R;G;Bm`,
channels in unpadded decimal, with no truncation by the 24-byte buffer. -/
theorem c8_custom_colors (r g b : Nat) (hr : r ≤ 255) (hg : g ≤ 255)
    (hb : b ≤ 255) :
    SrcCPP.customTextColor r g b =
      "\x1b[38;2;".data ++ decRepr r ++ ";".data ++ decRepr g ++ ";".data ++
        decRepr b ++ "m".data ∧
    SrcCPP.customBgColor r g b =
      "\x1b[48;2;".data ++ decRepr r ++ ";".data ++ decRepr g ++ ";".data ++
        decRepr b ++ "m".data := by
  have lr : (decRepr r).length ≤ 3 := decRepr_length_le (by norm_num; omega) (by omega)
  have lg : (decRepr g).length ≤ 3 := decRepr_length_le (by norm_num; omega) (by omega)
  have lb : (decRepr b).length ≤ 3 := decRepr_length_le (by norm_num; omega) (by omega)
  constructor
  · unfold SrcCPP.customTextColor
    apply List.take_of_length_le
    simp only [List.length_append, List.length_cons, List.length_nil]
    omega
  · unfold SrcCPP.customBgColor
    apply List.take_of_length_le
    simp only [List.length_append, List.length_cons, List.length_nil]
    omega

/-- C8 witness: the two concrete instances named by the claim. -/
theorem c8_custom_colors_witness :
    SrcCPP.customTextColor 255 0 0 = "\x1b[38;2;255;0;0m".data ∧
    SrcCPP.customBgColor 0 255 0 = "\x1b[48;2;0;255;0m".data := by
  constructor
  · rw [(c8_custom_colors 255 0 0 (by decide) (by decide) (by decide)).1]
    decide
  · rw [(c8_custom_colors 0 255 0 (by decide) (by decide) (by decide)).2]
    decide

/-- C9: every logging entry point of every variant leaves the logger
configuration (transport, clock reference, toggles) unchanged — their bodies
assign none of the state variables — and the setters modify exactly their own
flag. -/
theorem c9_logging_preserves_state :
    (∀ (st : SrcC.State) (ms : Nat) (ty r : List Char),
      (SrcC.logCall st ms r).1 = st ∧ (SrcC.logWithTypeCall st ms ty r).1 = st ∧
      (SrcC.errorCall st ms r).1 = st ∧ (SrcC.warningCall st ms r).1 = st ∧
      (SrcC.okCall st ms r).1 = st ∧ (SrcC.successCall st ms r).1 = st ∧
      (SrcC.infoCall st ms r).1 = st) ∧
    (∀ (st : SrcCPP.State) (ms line : Nat) (ty style file r : List Char),
      (SrcCPP.logCall st ms r).1 = st ∧
      (SrcCPP.logWithTypeCall st ms ty style r).1 = st ∧
      (SrcCPP.errorCall st ms file line r).1 = st ∧
      (SrcCPP.warningCall st ms file line r).1 = st ∧
      (SrcCPP.okCall st ms r).1 = st ∧ (SrcCPP.successCall st ms r).1 = st ∧
      (SrcCPP.infoCall st ms r).1 = st) ∧
    (∀ (st : TI.State) (line : Nat) (ty style file : Option (List Char))
        (r : List Char),
      (TI.logCall st r).1 = st ∧ (TI.logWithTypeCall st ty style r).1 = st ∧
      (TI.errorCall st file line r).1 = st ∧
      (TI.warningCall st file line r).1 = st ∧
      (TI.okCall st r).1 = st ∧ (TI.successCall st r).1 = st ∧
      (TI.infoCall st r).1 = st) ∧
    (∀ (st : SrcC.State) (b : Bool),
      SrcC.debug_setTimestampEnabled st b =
        { st with timestampEnabled := b } ∧
      SrcC.debug_setColorEnabled st b = { st with colorEnabled := b }) ∧
    (∀ (st : TI.State) (b : Bool),
      TI.debug_setTimestampEnabled st b = { st with timestampEnabled := b } ∧
      TI.debug_setColorEnabled st b = { st with colorEnabled := b } ∧
      TI.debug_setFilenameLineEnabled st b =
        { st with filenameLineEnabled := b }) := by
  refine ⟨?_, ?_, ?_, ?_, ?_⟩
  · intros; exact ⟨rfl, rfl, rfl, rfl, rfl, rfl, rfl⟩
  · intros; exact ⟨rfl, rfl, rfl, rfl, rfl, rfl, rfl⟩
  · intros; exact ⟨rfl, rfl, rfl, rfl, rfl, rfl, rfl⟩
  · intros; exact ⟨rfl, rfl⟩
  · intros; exact ⟨rfl, rfl, rfl⟩

/-- C10: if the composed payload contains a NUL before the capacity bound,
transmission stops at the first NUL in every variant: the transmitted bytes
are exactly the timestamp prefix followed by the payload bytes before the
first NUL — nothing at or after the NUL is handed to the transport. -/
theorem c10_nul_stops_transmission (ets color fl : Bool) (ms : Nat)
    (a b : List Char) (hms : ms < 2 ^ 32) (hnul : ∀ c ∈ a, c ≠ '\x00')
    (hlen : a.length ≤ 255) :
    SrcC.sendBytes ⟨true, ets, color⟩ ms (a ++ '\x00' :: b) =
      tsPart ets ms ++ a ∧
    SrcCPP.sendBytes ⟨true, ets, color, fl⟩ ms (a ++ '\x00' :: b) =
      tsPart ets ms ++ a ∧
    TI.sendBytes ⟨true, some ms, ets, color, fl⟩ (a ++ '\x00' :: b) =
      tsPart ets ms ++ a := by
  have hc : cstr (a ++ '\x00' :: b) = a := cstr_append_nul b hnul
  have hocap : ¬ (OUT_CAP ≤ (if ets = true then tsRender ms else []).length) := by
    have he : (if ets = true then tsRender ms else []) = tsPart ets ms := rfl
    rw [he]
    have := tsPart_length_le ets hms
    unfold OUT_CAP DEBUG_BUFFER_LEN
    omega
  have hfit : a.length ≤ OUT_CAP - 1 - (if ets = true then tsRender ms else []).length := by
    have he : (if ets = true then tsRender ms else []) = tsPart ets ms := rfl
    rw [he]
    have := tsPart_length_le ets hms
    unfold OUT_CAP DEBUG_BUFFER_LEN
    omega
  refine ⟨?_, ?_, ?_⟩
  · simp only [SrcC.sendBytes, hc, if_neg hocap]
    rw [if_neg (show ¬ (true = false) by simp), List.take_of_length_le hfit]
    rfl
  · simp only [SrcCPP.sendBytes, hc, if_neg hocap]
    rw [List.take_of_length_le hfit]
    rfl
  · simp only [TI.sendBytes, hc, if_neg hocap]
    rw [if_neg (show ¬ (true = false) by simp), List.take_of_length_le hfit]
    rfl

/-- C10 witness: a concrete payload with an embedded NUL; the bytes after the
NUL are dropped in all three variants. -/
theorem c10_nul_stops_transmission_witness :
    SrcC.sendBytes ⟨true, true, true⟩ 0 ("ab".data ++ '\x00' :: "cd".data) =
      "[00:00:00.000] ab".data ∧
    TI.sendBytes ⟨true, some 0, true, true, false⟩
      ("ab".data ++ '\x00' :: "cd".data) = "[00:00:00.000] ab".data := by
  have h := c10_nul_stops_transmission true true false 0 "ab".data "cd".data
    (by decide) (by decide) (by decide)
  refine ⟨?_, ?_⟩
  · rw [h.1]; decide
  · rw [h.2.2]; decide

/-- C3 counterexample: with a configured transport and timestamps enabled, an
empty (rendered) format string does not produce zero transmitted bytes:
`debug_log("")` transmits the 15-byte timestamp prefix. -/
theorem c3_counterexample :
    SrcC.debug_log ⟨true, true, true⟩ 0 [] = "[00:00:00.000] ".data ∧
    (SrcC.debug_log ⟨true, true, true⟩ 0 []).length = 15 := by
  constructor <;> decide

/-- C3 (amended): in the plain-C and TI variants, calling any logging entry
point before configuration or with a null transport transmits zero bytes and
leaves the logger state unchanged.  (An empty format string is not
special-cased by the code: with a configured transport the enabled prefixes
are still transmitted; and the C++ `_send` performs no null-transport check
of its own.) -/
theorem c3_amended :
    (∀ (ets color : Bool) (ms : Nat) (ty r : List Char),
      SrcC.debug_log ⟨false, ets, color⟩ ms r = [] ∧
      SrcC.debug_logWithType ⟨false, ets, color⟩ ms ty r = [] ∧
      SrcC.debug_error ⟨false, ets, color⟩ ms r = [] ∧
      SrcC.debug_warning ⟨false, ets, color⟩ ms r = [] ∧
      SrcC.debug_ok ⟨false, ets, color⟩ ms r = [] ∧
      SrcC.debug_success ⟨false, ets, color⟩ ms r = [] ∧
      SrcC.debug_info ⟨false, ets, color⟩ ms r = [] ∧
      (SrcC.logCall ⟨false, ets, color⟩ ms r).1 = ⟨false, ets, color⟩) ∧
    (∀ (tick : Option Nat) (ets color fl : Bool)
        (ty style file : Option (List Char)) (line : Nat) (r : List Char),
      TI.debug_log ⟨false, tick, ets, color, fl⟩ r = [] ∧
      TI.debug_logWithType ⟨false, tick, ets, color, fl⟩ ty style r = [] ∧
      TI.debug_error_fileline ⟨false, tick, ets, color, fl⟩ file line r = [] ∧
      TI.debug_warning_fileline ⟨false, tick, ets, color, fl⟩ file line r = [] ∧
      TI.debug_ok ⟨false, tick, ets, color, fl⟩ r = [] ∧
      TI.debug_success ⟨false, tick, ets, color, fl⟩ r = [] ∧
      TI.debug_info ⟨false, tick, ets, color, fl⟩ r = [] ∧
      (TI.logCall ⟨false, tick, ets, color, fl⟩ r).1 =
        ⟨false, tick, ets, color, fl⟩) := by
  constructor
  · intro ets color ms ty r
    exact ⟨rfl, rfl, rfl, rfl, rfl, rfl, rfl, rfl⟩
  · intro tick ets color fl ty style file line r
    refine ⟨rfl, rfl, ?_, ?_, rfl, rfl, rfl, rfl⟩ <;>
      (cases fl <;> cases file <;> rfl)

/-- C1 counterexample: with a type tag of 28 units and a rendered user text
of exactly 255 units (= capacity−1), `debug_logWithType` truncates the last
unit of the user text — the transmitted sequence is not the prefixes followed
by the full user text. -/
theorem c1_counterexample :
    SrcC.debug_logWithType ⟨true, false, false⟩ 0 (List.replicate 28 'T')
        (List.replicate 255 'm') =
      "[ ".data ++ List.replicate 28 'T' ++ " ] ".data ++
        List.replicate 254 'm' ∧
    SrcC.debug_logWithType ⟨true, false, false⟩ 0 (List.replicate 28 'T')
        (List.replicate 255 'm') ≠
      "[ ".data ++ List.replicate 28 'T' ++ " ] ".data ++
        List.replicate 255 'm' := by
  constructor <;> decide

/-- C1 (amended): with a configured transport, a 32-bit clock value and a
NUL-free rendered user text of length at most capacity−1 = 255, `log` and
every severity helper transmit exactly the enabled timestamp prefix, then the
decoration, then the full user text; `logWithType` does so provided the
decoration also fits, i.e. the NUL-free type tag has at most 27 units (so
that `[ type ] ` plus 255 units fit the 288-unit combined buffer). -/
theorem c1_amended (ets color : Bool) (ms : Nat) (ty r : List Char)
    (hms : ms < 2 ^ 32) (hlen : r.length ≤ 255) (hnul : ∀ c ∈ r, c ≠ '\x00')
    (htynul : ∀ c ∈ ty, c ≠ '\x00') (htylen : ty.length ≤ 27) :
    SrcC.debug_log ⟨true, ets, color⟩ ms r = tsPart ets ms ++ r ∧
    SrcCPP.log ⟨true, ets, color, false⟩ ms r = tsPart ets ms ++ r ∧
    SrcC.debug_error ⟨true, ets, color⟩ ms r =
      tsPart ets ms ++
        ((if color = true then SrcC.ERROR_TYPE else SrcC.ERROR_TYPE_PLAIN) ++ r) ∧
    SrcC.debug_warning ⟨true, ets, color⟩ ms r =
      tsPart ets ms ++
        ((if color = true then SrcC.WARNING_TYPE else SrcC.WARNING_TYPE_PLAIN) ++ r) ∧
    SrcC.debug_ok ⟨true, ets, color⟩ ms r =
      tsPart ets ms ++
        ((if color = true then SrcC.OK_TYPE else SrcC.OK_TYPE_PLAIN) ++ r) ∧
    SrcC.debug_success ⟨true, ets, color⟩ ms r =
      tsPart ets ms ++
        ((if color = true then SrcC.SUCCESS_TYPE else SrcC.SUCCESS_TYPE_PLAIN) ++ r) ∧
    SrcC.debug_info ⟨true, ets, color⟩ ms r =
      tsPart ets ms ++
        ((if color = true then SrcC.INFO_TYPE else SrcC.INFO_TYPE_PLAIN) ++ r) ∧
    SrcC.debug_logWithType ⟨true, ets, color⟩ ms ty r =
      tsPart ets ms ++ ("[ ".data ++ ty ++ (" ] ".data ++ r)) := by
  refine ⟨?_, ?_, ?_, ?_, ?_, ?_, ?_, ?_⟩
  · simp only [SrcC.debug_log, renderMsg_eq_self hlen]
    exact srcC_send_eq ets color ms r hms hnul (by omega)
  · simp only [SrcCPP.log, renderMsg_eq_self hlen]
    exact srcCPP_send_eq ets color false ms r hms hnul (by omega)
  · simp only [SrcC.debug_error, renderMsg_eq_self hlen]
    exact srcC_sev_send ets color ms _ _ r hms hlen hnul (by decide) (by decide)
      (by decide) (by decide)
  · simp only [SrcC.debug_warning, renderMsg_eq_self hlen]
    exact srcC_sev_send ets color ms _ _ r hms hlen hnul (by decide) (by decide)
      (by decide) (by decide)
  · simp only [SrcC.debug_ok, renderMsg_eq_self hlen]
    exact srcC_sev_send ets color ms _ _ r hms hlen hnul (by decide) (by decide)
      (by decide) (by decide)
  · simp only [SrcC.debug_success, renderMsg_eq_self hlen]
    exact srcC_sev_send ets color ms _ _ r hms hlen hnul (by decide) (by decide)
      (by decide) (by decide)
  · simp only [SrcC.debug_info, renderMsg_eq_self hlen]
    exact srcC_sev_send ets color ms _ _ r hms hlen hnul (by decide) (by decide)
      (by decide) (by decide)
  · simp only [SrcC.debug_logWithType, renderMsg_eq_self hlen,
      cstr_eq_self hnul, cstr_eq_self htynul]
    have hnul2 : ∀ c ∈ "[ ".data ++ ty ++ (" ] ".data ++ r), c ≠ '\x00' := by
      intro c hc
      rcases List.mem_append.mp hc with h | h
      · rcases List.mem_append.mp h with h | h
        · exact (show ∀ x ∈ "[ ".data, x ≠ '\x00' by decide) c h
        · exact htynul c h
      rcases List.mem_append.mp h with h | h
      · exact (show ∀ x ∈ " ] ".data, x ≠ '\x00' by decide) c h
      · exact hnul c h
    have := srcC_send_take ets color ms ("[ ".data ++ ty ++ (" ] ".data ++ r))
      (COMBINED_CAP - 1) hms hnul2
      (by simp only [List.length_append, List.length_cons, List.length_nil]; omega)
      (by simp only [List.length_append, List.length_cons, List.length_nil]
          unfold COMBINED_CAP DEBUG_BUFFER_LEN; omega)
    simpa [List.append_assoc] using this

/-- C1 witness: a two-character message with timestamps on, clock = 0. -/
theorem c1_amended_witness :
    SrcC.debug_log ⟨true, true, true⟩ 0 "hi".data =
      "[00:00:00.000] hi".data ∧
    SrcC.debug_error ⟨true, true, false⟩ 0 "hi".data =
      "[00:00:00.000] [ ERROR ] hi".data := by
  constructor
  · rw [(c1_amended true true 0 "T".data "hi".data (by decide) (by decide)
      (by decide) (by decide) (by decide)).1]
    decide
  · rw [(c1_amended true false 0 "T".data "hi".data (by decide) (by decide)
      (by decide) (by decide) (by decide)).2.2.1]
    decide

/-- C2 counterexample: a caller-supplied type tag of 285 units makes
`debug_logWithType` truncate the decoration itself — the closing ` ] ` of the
`[ type ] ` decoration never appears in the transmitted bytes. -/
theorem c2_counterexample :
    SrcC.debug_logWithType ⟨true, false, false⟩ 0 (List.replicate 285 'T')
        (List.replicate 300 'm') =
      "[ ".data ++ List.replicate 285 'T' ∧
    ("[ ".data ++ List.replicate 285 'T' ++ " ] ".data).isPrefixOf
      (SrcC.debug_logWithType ⟨true, false, false⟩ 0 (List.replicate 285 'T')
        (List.replicate 300 'm')) = false := by
  constructor <;> decide

/-- C2 (amended): with a configured transport, a 32-bit clock value and a
NUL-free rendered user text longer than capacity−1 = 255 units, the user text
is truncated to exactly 255 units; the decoration is written in full before
the user text whenever the decoration itself fits the combined buffer —
always true for `log` and the fixed severity tags, and true for
`logWithType` whenever the NUL-free type tag has at most 27 units — so
truncation removes only the tail of the user text. -/
theorem c2_amended (ets color : Bool) (ms : Nat) (ty r : List Char)
    (hms : ms < 2 ^ 32) (hlong : 255 < r.length) (hnul : ∀ c ∈ r, c ≠ '\x00')
    (htynul : ∀ c ∈ ty, c ≠ '\x00') (htylen : ty.length ≤ 27) :
    SrcC.debug_log ⟨true, ets, color⟩ ms r = tsPart ets ms ++ r.take 255 ∧
    SrcC.debug_error ⟨true, ets, color⟩ ms r =
      tsPart ets ms ++
        ((if color = true then SrcC.ERROR_TYPE else SrcC.ERROR_TYPE_PLAIN) ++
          r.take 255) ∧
    SrcC.debug_warning ⟨true, ets, color⟩ ms r =
      tsPart ets ms ++
        ((if color = true then SrcC.WARNING_TYPE else SrcC.WARNING_TYPE_PLAIN) ++
          r.take 255) ∧
    SrcC.debug_ok ⟨true, ets, color⟩ ms r =
      tsPart ets ms ++
        ((if color = true then SrcC.OK_TYPE else SrcC.OK_TYPE_PLAIN) ++
          r.take 255) ∧
    SrcC.debug_success ⟨true, ets, color⟩ ms r =
      tsPart ets ms ++
        ((if color = true then SrcC.SUCCESS_TYPE else SrcC.SUCCESS_TYPE_PLAIN) ++
          r.take 255) ∧
    SrcC.debug_info ⟨true, ets, color⟩ ms r =
      tsPart ets ms ++
        ((if color = true then SrcC.INFO_TYPE else SrcC.INFO_TYPE_PLAIN) ++
          r.take 255) ∧
    SrcC.debug_logWithType ⟨true, ets, color⟩ ms ty r =
      tsPart ets ms ++ ("[ ".data ++ ty ++ (" ] ".data ++ r.take 255)) := by
  have hnul1 : ∀ c ∈ r.take 255, c ≠ '\x00' :=
    fun c hc => hnul c (List.take_subset 255 r hc)
  have hlen1 : (r.take 255).length ≤ 255 := by
    simp [List.length_take]
  refine ⟨?_, ?_, ?_, ?_, ?_, ?_, ?_⟩
  · simp only [SrcC.debug_log, renderMsg_eq_take]
    exact srcC_send_eq ets color ms (r.take 255) hms hnul1 (by omega)
  · simp only [SrcC.debug_error, renderMsg_eq_take]
    exact srcC_sev_send ets color ms _ _ (r.take 255) hms hlen1 hnul1
      (by decide) (by decide) (by decide) (by decide)
  · simp only [SrcC.debug_warning, renderMsg_eq_take]
    exact srcC_sev_send ets color ms _ _ (r.take 255) hms hlen1 hnul1
      (by decide) (by decide) (by decide) (by decide)
  · simp only [SrcC.debug_ok, renderMsg_eq_take]
    exact srcC_sev_send ets color ms _ _ (r.take 255) hms hlen1 hnul1
      (by decide) (by decide) (by decide) (by decide)
  · simp only [SrcC.debug_success, renderMsg_eq_take]
    exact srcC_sev_send ets color ms _ _ (r.take 255) hms hlen1 hnul1
      (by decide) (by decide) (by decide) (by decide)
  · simp only [SrcC.debug_info, renderMsg_eq_take]
    exact srcC_sev_send ets color ms _ _ (r.take 255) hms hlen1 hnul1
      (by decide) (by decide) (by decide) (by decide)
  · simp only [SrcC.debug_logWithType, renderMsg_eq_take,
      cstr_eq_self hnul1, cstr_eq_self htynul]
    have hnul2 : ∀ c ∈ "[ ".data ++ ty ++ (" ] ".data ++ r.take 255),
        c ≠ '\x00' := by
      intro c hc
      rcases List.mem_append.mp hc with h | h
      · rcases List.mem_append.mp h with h | h
        · exact (show ∀ x ∈ "[ ".data, x ≠ '\x00' by decide) c h
        · exact htynul c h
      rcases List.mem_append.mp h with h | h
      · exact (show ∀ x ∈ " ] ".data, x ≠ '\x00' by decide) c h
      · exact hnul1 c h
    have := srcC_send_take ets color ms
      ("[ ".data ++ ty ++ (" ] ".data ++ r.take 255)) (COMBINED_CAP - 1)
      hms hnul2
      (by simp only [List.length_append, List.length_cons, List.length_nil]; omega)
      (by simp only [List.length_append, List.length_cons, List.length_nil]
          unfold COMBINED_CAP DEBUG_BUFFER_LEN; omega)
    simpa [List.append_assoc] using this

/-- C5 counterexample: with `colorEnabled = false`, a rendered user text that
itself contains the escape byte is transmitted unchanged, so the transmitted
bytes do contain 0x1B. -/
theorem c5_counterexample :
    SrcC.debug_error ⟨true, false, false⟩ 0 ['\x1b'] = "[ ERROR ] \x1b".data ∧
    '\x1b' ∈ SrcC.debug_error ⟨true, false, false⟩ 0 ['\x1b'] := by
  constructor <;> decide

/-- C5 (amended): for every severity helper, with `colorEnabled = false` the
decoration is the plain bracketed tag and — provided the rendered user text
contains no escape byte — the transmitted bytes contain no 0x1B; with
`colorEnabled = true` the decoration is the colorized bold variant of the
same tag. -/
theorem c5_amended (ets : Bool) (ms : Nat) (r : List Char)
    (hms : ms < 2 ^ 32) (hlen : r.length ≤ 255) (hnul : ∀ c ∈ r, c ≠ '\x00')
    (hesc : ∀ c ∈ r, c ≠ '\x1b') :
    (SrcC.debug_error ⟨true, ets, false⟩ ms r =
        tsPart ets ms ++ (SrcC.ERROR_TYPE_PLAIN ++ r) ∧
      '\x1b' ∉ SrcC.debug_error ⟨true, ets, false⟩ ms r ∧
      SrcC.debug_error ⟨true, ets, true⟩ ms r =
        tsPart ets ms ++ (SrcC.ERROR_TYPE ++ r)) ∧
    (SrcC.debug_warning ⟨true, ets, false⟩ ms r =
        tsPart ets ms ++ (SrcC.WARNING_TYPE_PLAIN ++ r) ∧
      '\x1b' ∉ SrcC.debug_warning ⟨true, ets, false⟩ ms r ∧
      SrcC.debug_warning ⟨true, ets, true⟩ ms r =
        tsPart ets ms ++ (SrcC.WARNING_TYPE ++ r)) ∧
    (SrcC.debug_ok ⟨true, ets, false⟩ ms r =
        tsPart ets ms ++ (SrcC.OK_TYPE_PLAIN ++ r) ∧
      '\x1b' ∉ SrcC.debug_ok ⟨true, ets, false⟩ ms r ∧
      SrcC.debug_ok ⟨true, ets, true⟩ ms r =
        tsPart ets ms ++ (SrcC.OK_TYPE ++ r)) ∧
    (SrcC.debug_success ⟨true, ets, false⟩ ms r =
        tsPart ets ms ++ (SrcC.SUCCESS_TYPE_PLAIN ++ r) ∧
      '\x1b' ∉ SrcC.debug_success ⟨true, ets, false⟩ ms r ∧
      SrcC.debug_success ⟨true, ets, true⟩ ms r =
        tsPart ets ms ++ (SrcC.SUCCESS_TYPE ++ r)) ∧
    (SrcC.debug_info ⟨true, ets, false⟩ ms r =
        tsPart ets ms ++ (SrcC.INFO_TYPE_PLAIN ++ r) ∧
      '\x1b' ∉ SrcC.debug_info ⟨true, ets, false⟩ ms r ∧
      SrcC.debug_info ⟨true, ets, true⟩ ms r =
        tsPart ets ms ++ (SrcC.INFO_TYPE ++ r)) := by
  have herrP : SrcC.debug_error ⟨true, ets, false⟩ ms r =
      tsPart ets ms ++ (SrcC.ERROR_TYPE_PLAIN ++ r) := by
    show SrcC.sendBytes ⟨true, ets, false⟩ ms
      ((SrcC.ERROR_TYPE_PLAIN ++ cstr (renderMsg r)).take (COMBINED_CAP - 1)) = _
    rw [renderMsg_eq_self hlen]
    exact srcC_tag_send ets false ms SrcC.ERROR_TYPE_PLAIN r hms hlen hnul
      (by decide) (by decide)
  have herrC : SrcC.debug_error ⟨true, ets, true⟩ ms r =
      tsPart ets ms ++ (SrcC.ERROR_TYPE ++ r) := by
    show SrcC.sendBytes ⟨true, ets, true⟩ ms
      ((SrcC.ERROR_TYPE ++ cstr (renderMsg r)).take (COMBINED_CAP - 1)) = _
    rw [renderMsg_eq_self hlen]
    exact srcC_tag_send ets true ms SrcC.ERROR_TYPE r hms hlen hnul
      (by decide) (by decide)
  have hwarnP : SrcC.debug_warning ⟨true, ets, false⟩ ms r =
      tsPart ets ms ++ (SrcC.WARNING_TYPE_PLAIN ++ r) := by
    show SrcC.sendBytes ⟨true, ets, false⟩ ms
      ((SrcC.WARNING_TYPE_PLAIN ++ cstr (renderMsg r)).take (COMBINED_CAP - 1)) = _
    rw [renderMsg_eq_self hlen]
    exact srcC_tag_send ets false ms SrcC.WARNING_TYPE_PLAIN r hms hlen hnul
      (by decide) (by decide)
  have hwarnC : SrcC.debug_warning ⟨true, ets, true⟩ ms r =
      tsPart ets ms ++ (SrcC.WARNING_TYPE ++ r) := by
    show SrcC.sendBytes ⟨true, ets, true⟩ ms
      ((SrcC.WARNING_TYPE ++ cstr (renderMsg r)).take (COMBINED_CAP - 1)) = _
    rw [renderMsg_eq_self hlen]
    exact srcC_tag_send ets true ms SrcC.WARNING_TYPE r hms hlen hnul
      (by decide) (by decide)
  have hokP : SrcC.debug_ok ⟨true, ets, false⟩ ms r =
      tsPart ets ms ++ (SrcC.OK_TYPE_PLAIN ++ r) := by
    show SrcC.sendBytes ⟨true, ets, false⟩ ms
      ((SrcC.OK_TYPE_PLAIN ++ cstr (renderMsg r)).take (COMBINED_CAP - 1)) = _
    rw [renderMsg_eq_self hlen]
    exact srcC_tag_send ets false ms SrcC.OK_TYPE_PLAIN r hms hlen hnul
      (by decide) (by decide)
  have hokC : SrcC.debug_ok ⟨true, ets, true⟩ ms r =
      tsPart ets ms ++ (SrcC.OK_TYPE ++ r) := by
    show SrcC.sendBytes ⟨true, ets, true⟩ ms
      ((SrcC.OK_TYPE ++ cstr (renderMsg r)).take (COMBINED_CAP - 1)) = _
    rw [renderMsg_eq_self hlen]
    exact srcC_tag_send ets true ms SrcC.OK_TYPE r hms hlen hnul
      (by decide) (by decide)
  have hsucP : SrcC.debug_success ⟨true, ets, false⟩ ms r =
      tsPart ets ms ++ (SrcC.SUCCESS_TYPE_PLAIN ++ r) := by
    show SrcC.sendBytes ⟨true, ets, false⟩ ms
      ((SrcC.SUCCESS_TYPE_PLAIN ++ cstr (renderMsg r)).take (COMBINED_CAP - 1)) = _
    rw [renderMsg_eq_self hlen]
    exact srcC_tag_send ets false ms SrcC.SUCCESS_TYPE_PLAIN r hms hlen hnul
      (by decide) (by decide)
  have hsucC : SrcC.debug_success ⟨true, ets, true⟩ ms r =
      tsPart ets ms ++ (SrcC.SUCCESS_TYPE ++ r) := by
    show SrcC.sendBytes ⟨true, ets, true⟩ ms
      ((SrcC.SUCCESS_TYPE ++ cstr (renderMsg r)).take (COMBINED_CAP - 1)) = _
    rw [renderMsg_eq_self hlen]
    exact srcC_tag_send ets true ms SrcC.SUCCESS_TYPE r hms hlen hnul
      (by decide) (by decide)
  have hinfP : SrcC.debug_info ⟨true, ets, false⟩ ms r =
      tsPart ets ms ++ (SrcC.INFO_TYPE_PLAIN ++ r) := by
    show SrcC.sendBytes ⟨true, ets, false⟩ ms
      ((SrcC.INFO_TYPE_PLAIN ++ cstr (renderMsg r)).take (COMBINED_CAP - 1)) = _
    rw [renderMsg_eq_self hlen]
    exact srcC_tag_send ets false ms SrcC.INFO_TYPE_PLAIN r hms hlen hnul
      (by decide) (by decide)
  have hinfC : SrcC.debug_info ⟨true, ets, true⟩ ms r =
      tsPart ets ms ++ (SrcC.INFO_TYPE ++ r) := by
    show SrcC.sendBytes ⟨true, ets, true⟩ ms
      ((SrcC.INFO_TYPE ++ cstr (renderMsg r)).take (COMBINED_CAP - 1)) = _
    rw [renderMsg_eq_self hlen]
    exact srcC_tag_send ets true ms SrcC.INFO_TYPE r hms hlen hnul
      (by decide) (by decide)
  refine ⟨⟨herrP, ?_, herrC⟩, ⟨hwarnP, ?_, hwarnC⟩, ⟨hokP, ?_, hokC⟩,
    ⟨hsucP, ?_, hsucC⟩, ⟨hinfP, ?_, hinfC⟩⟩
  · rw [herrP]; exact esc_notin_append ets ms _ r (by decide) hesc
  · rw [hwarnP]; exact esc_notin_append ets ms _ r (by decide) hesc
  · rw [hokP]; exact esc_notin_append ets ms _ r (by decide) hesc
  · rw [hsucP]; exact esc_notin_append ets ms _ r (by decide) hesc
  · rw [hinfP]; exact esc_notin_append ets ms _ r (by decide) hesc

/-- C5 witness: a one-character escape-free message through `warning`. -/
theorem c5_amended_witness :
    SrcC.debug_warning ⟨true, false, false⟩ 0 "w".data = "[ WARNING ] w".data ∧
    '\x1b' ∉ SrcC.debug_warning ⟨true, false, false⟩ 0 "w".data := by
  have h := c5_amended false 0 "w".data (by decide) (by decide) (by decide)
    (by decide)
  constructor
  · rw [h.2.1.1]; decide
  · exact h.2.1.2.1

/-- C6 counterexample: under identical configuration (transport set,
timestamps off, color off) the plain-C variant and the C++ variant transmit
different byte sequences: Src-C spells its severity tag `[ ERROR ] ` while
the C++ variant spells it `[ERROR] `, and Src-C's `logWithType` emits an
unstyled `[ T ] ` decoration while the C++ variant emits
`ESC[1m...[T]ESC[0m `. -/
theorem c6_counterexample :
    SrcC.debug_error ⟨true, false, false⟩ 0 "m".data = "[ ERROR ] m".data ∧
    SrcCPP.error ⟨true, false, false, false⟩ 0 [] 0 "m".data =
      "[ERROR] m".data ∧
    SrcC.debug_error ⟨true, false, false⟩ 0 "m".data ≠
      SrcCPP.error ⟨true, false, false, false⟩ 0 [] 0 "m".data ∧
    SrcC.debug_logWithType ⟨true, false, false⟩ 0 "T".data "x".data =
      "[ T ] x".data ∧
    SrcCPP.logWithType ⟨true, false, false, false⟩ 0 "T".data [] "x".data =
      "\x1b[1m[T]\x1b[0m x".data := by
  refine ⟨by decide, by decide, by decide, by decide, by decide⟩

/-- C6 (amended): the C++ and TI variants produce identical transmitted byte
sequences for every shared entry point under the same configuration (transport
set, same toggles, TI tick pointer present and equal to the C++ clock
reading, non-null string arguments); the plain-C variant differs from both in
its tag spelling and its `logWithType` decoration. -/
theorem c6_amended (ets color fl : Bool) (ms line : Nat)
    (ty style file r : List Char) :
    TI.debug_log ⟨true, some ms, ets, color, fl⟩ r =
      SrcCPP.log ⟨true, ets, color, fl⟩ ms r ∧
    TI.debug_logWithType ⟨true, some ms, ets, color, fl⟩ (some ty) (some style) r =
      SrcCPP.logWithType ⟨true, ets, color, fl⟩ ms ty style r ∧
    TI.debug_error_fileline ⟨true, some ms, ets, color, fl⟩ (some file) line r =
      SrcCPP.error ⟨true, ets, color, fl⟩ ms file line r ∧
    TI.debug_warning_fileline ⟨true, some ms, ets, color, fl⟩ (some file) line r =
      SrcCPP.warning ⟨true, ets, color, fl⟩ ms file line r ∧
    TI.debug_ok ⟨true, some ms, ets, color, fl⟩ r =
      SrcCPP.ok ⟨true, ets, color, fl⟩ ms r ∧
    TI.debug_success ⟨true, some ms, ets, color, fl⟩ r =
      SrcCPP.success ⟨true, ets, color, fl⟩ ms r ∧
    TI.debug_info ⟨true, some ms, ets, color, fl⟩ r =
      SrcCPP.info ⟨true, ets, color, fl⟩ ms r := by
  refine ⟨rfl, rfl, ?_, ?_, rfl, rfl, rfl⟩ <;> (cases fl <;> rfl)

/-- C7 counterexample: the Src-C `debug_logWithType` does not prepend the
bold-styled `ESC[1m...` decoration — its output contains no escape byte at
all. -/
theorem c7_counterexample :
    SrcC.debug_logWithType ⟨true, false, false⟩ 0 "TAG".data "hello".data =
      "[ TAG ] hello".data ∧
    '\x1b' ∉ SrcC.debug_logWithType ⟨true, false, false⟩ 0 "TAG".data
      "hello".data := by
  constructor <;> decide

/-- C7 (amended): in the C++ and TI variants, `logWithType` prepends
`ESC[1m` + style + `[` + typeTag + `]` + `ESC[0m` + a space ahead of the
rendered message unconditionally, and in all three variants (including Src-C,
whose decoration is the unstyled `[ typeTag ] `) the transmitted output is
identical whether `colorEnabled` is true or false. -/
theorem c7_amended (ets color fl : Bool) (ms : Nat) (ty style r : List Char)
    (hms : ms < 2 ^ 32) (htynul : ∀ c ∈ ty, c ≠ '\x00')
    (hstynul : ∀ c ∈ style, c ≠ '\x00') (hnul : ∀ c ∈ r, c ≠ '\x00')
    (hlen : r.length ≤ 255) (hfit : style.length + ty.length + r.length ≤ 276) :
    SrcCPP.logWithType ⟨true, ets, color, fl⟩ ms ty style r =
      tsPart ets ms ++
        ("\x1b[1m".data ++ style ++ ("[".data ++ ty ++ ("]\x1b[0m ".data ++ r))) ∧
    TI.debug_logWithType ⟨true, some ms, ets, color, fl⟩ (some ty) (some style) r =
      tsPart ets ms ++
        ("\x1b[1m".data ++ style ++ ("[".data ++ ty ++ ("]\x1b[0m ".data ++ r))) ∧
    (∀ c1 c2 : Bool,
      SrcCPP.logWithType ⟨true, ets, c1, fl⟩ ms ty style r =
        SrcCPP.logWithType ⟨true, ets, c2, fl⟩ ms ty style r) ∧
    (∀ c1 c2 : Bool,
      TI.debug_logWithType ⟨true, some ms, ets, c1, fl⟩ (some ty) (some style) r =
        TI.debug_logWithType ⟨true, some ms, ets, c2, fl⟩ (some ty) (some style) r) ∧
    (∀ c1 c2 : Bool,
      SrcC.debug_logWithType ⟨true, ets, c1⟩ ms ty r =
        SrcC.debug_logWithType ⟨true, ets, c2⟩ ms ty r) := by
  have h1 : SrcCPP.logWithType ⟨true, ets, color, fl⟩ ms ty style r =
      tsPart ets ms ++
        ("\x1b[1m".data ++ style ++ ("[".data ++ ty ++ ("]\x1b[0m ".data ++ r))) := by
    simp only [SrcCPP.logWithType, renderMsg_eq_self hlen, cstr_eq_self hnul,
      cstr_eq_self htynul, cstr_eq_self hstynul]
    have hnul2 : ∀ c ∈ "\x1b[1m".data ++ style ++ "[".data ++ ty ++
        "]\x1b[0m ".data ++ r, c ≠ '\x00' := by
      intro c hc
      rcases List.mem_append.mp hc with h | h
      · rcases List.mem_append.mp h with h | h
        · rcases List.mem_append.mp h with h | h
          · rcases List.mem_append.mp h with h | h
            · rcases List.mem_append.mp h with h | h
              · exact (show ∀ x ∈ "\x1b[1m".data, x ≠ '\x00' by decide) c h
              · exact hstynul c h
            · exact (show ∀ x ∈ "[".data, x ≠ '\x00' by decide) c h
          · exact htynul c h
        · exact (show ∀ x ∈ "]\x1b[0m ".data, x ≠ '\x00' by decide) c h
      · exact hnul c h
    have := srcCPP_send_take ets color fl ms
      ("\x1b[1m".data ++ style ++ "[".data ++ ty ++ "]\x1b[0m ".data ++ r)
      (COMBINED_CAP - 1) hms hnul2
      (by simp only [List.length_append, List.length_cons, List.length_nil]; omega)
      (by simp only [List.length_append, List.length_cons, List.length_nil]
          unfold COMBINED_CAP DEBUG_BUFFER_LEN; omega)
    simpa [List.append_assoc] using this
  refine ⟨h1, ?_, ?_, ?_, ?_⟩
  · rw [show TI.debug_logWithType ⟨true, some ms, ets, color, fl⟩ (some ty)
        (some style) r = SrcCPP.logWithType ⟨true, ets, color, fl⟩ ms ty style r
      from rfl]
    exact h1
  · intro c1 c2; rfl
  · intro c1 c2; rfl
  · intro c1 c2; rfl

/-- C7 witness: a concrete `logWithType` call (empty style) with timestamps
on, clock = 0, in the C++ variant. -/
theorem c7_amended_witness :
    SrcCPP.logWithType ⟨true, true, true, false⟩ 0 "X".data [] "m".data =
      "[00:00:00.000] \x1b[1m[X]\x1b[0m m".data := by
  rw [(c7_amended true true false 0 "X".data [] "m".data (by decide)
    (by decide) (by decide) (by decide) (by decide) (by decide)).1]
  decide

/-- C2 witness: a 256-unit message is cut to 255 units; the severity tag is
kept whole. -/
theorem c2_amended_witness :
    SrcC.debug_info ⟨true, false, false⟩ 0 (List.replicate 256 'm') =
      "[ INFO ] ".data ++ List.replicate 255 'm' := by
  have h := (c2_amended false false 0 "T".data (List.replicate 256 'm')
    (by decide) (by decide) (by decide) (by decide) (by decide)).2.2.2.2.2.1
  rw [h]
  decide

end EDbg
